import Mathlib

/-!
Verification development for the Digital Tattoo Studio 2D application
(a React single-page app, main component in `App.tsx`).

Shallow embedding conventions:
* JavaScript numbers are modelled as rationals (`ℚ`); the code performs only
  field arithmetic, `Math.min/max`, `Math.sqrt`, `Math.atan2` and the JS `%`
  remainder on them.  `Math.sqrt` and `Math.atan2` are transcendental, so the
  values they produce enter the model as parameters pinned down by algebraic
  hypotheses (`0 ≤ mag ∧ (100*mag)^2 = dx^2 + dy^2` for the scale magnitude,
  a range hypothesis `-180 < angle ≤ 180` for the atan2 degree result).
* The JS `%` operator is the truncated-division remainder (result carries the
  sign of the dividend); it is modelled by `jsRem` below.
* A TypeScript `Partial<Layer>` is modelled by `LayerPatch`, a record of
  `Option` fields; the object spread `{ ...l, ...updates }` is `applyPatch`.
* React `useState` state (`layers`, `selectedLayerId`) is modelled by the
  record `AppState`; each handler becomes a function from the old state (and
  its arguments) to the new state.
-/

/-- The `Layer` interface from `types.ts`: a placed instance of an asset. -/
structure Layer where
  id : String
  assetId : String
  src : String
  originalSrc : String
  x : ℚ
  y : ℚ
  width : ℚ
  height : ℚ
  scale : ℚ
  rotation : ℚ
  brightness : ℚ
  contrast : ℚ
  isFixed : Bool
deriving DecidableEq, Repr

/-- A TypeScript `Partial<Layer>`: every field optional.  A `none` field is a
key absent from the partial object. -/
structure LayerPatch where
  id? : Option String := none
  assetId? : Option String := none
  src? : Option String := none
  originalSrc? : Option String := none
  x? : Option ℚ := none
  y? : Option ℚ := none
  width? : Option ℚ := none
  height? : Option ℚ := none
  scale? : Option ℚ := none
  rotation? : Option ℚ := none
  brightness? : Option ℚ := none
  contrast? : Option ℚ := none
  isFixed? : Option Bool := none
deriving DecidableEq, Repr

/-- The empty partial `{}`. -/
def LayerPatch.empty : LayerPatch := {}

/-- The object spread `{ ...l, ...updates }`: fields present in the patch
override, absent fields are taken from `l`. -/
def applyPatch (l : Layer) (p : LayerPatch) : Layer where
  id := p.id?.getD l.id
  assetId := p.assetId?.getD l.assetId
  src := p.src?.getD l.src
  originalSrc := p.originalSrc?.getD l.originalSrc
  x := p.x?.getD l.x
  y := p.y?.getD l.y
  width := p.width?.getD l.width
  height := p.height?.getD l.height
  scale := p.scale?.getD l.scale
  rotation := p.rotation?.getD l.rotation
  brightness := p.brightness?.getD l.brightness
  contrast := p.contrast?.getD l.contrast
  isFixed := p.isFixed?.getD l.isFixed

/-- `handleUpdateLayer` (App.tsx):
`setLayers(prev => prev.map(l => l.id === id ? { ...l, ...updates } : l))`.
Note there is no `isFixed` guard in this function. -/
def handleUpdateLayer (ls : List Layer) (id : String) (p : LayerPatch) : List Layer :=
  ls.map (fun l => if l.id = id then applyPatch l p else l)

/-- The two pieces of `useState` App state the layer operations touch. -/
structure AppState where
  layers : List Layer
  selectedLayerId : Option String
deriving DecidableEq, Repr

/-- `handleUpdateLayer` acting on the whole app state (it only calls
`setLayers`; the selection is untouched). -/
def updateLayerS (s : AppState) (id : String) (p : LayerPatch) : AppState :=
  { s with layers := handleUpdateLayer s.layers id p }

/-- `handleDeleteLayer` (App.tsx):
`setLayers(prev => prev.filter(l => l.id !== id));`
`if (selectedLayerId === id) { setSelectedLayerId(null); }`. -/
def handleDeleteLayer (s : AppState) (id : String) : AppState where
  layers := s.layers.filter (fun l => l.id ≠ id)
  selectedLayerId := if s.selectedLayerId = some id then none else s.selectedLayerId

/-- `handleFixLayer` (App.tsx):
`handleUpdateLayer(id, { isFixed: true }); setSelectedLayerId(null);` —
the selection is cleared unconditionally. -/
def handleFixLayer (s : AppState) (id : String) : AppState where
  layers := handleUpdateLayer s.layers id { isFixed? := some true }
  selectedLayerId := none

/-! ## Interaction controller (`TattooLayer` component) -/

/-- Truncation toward zero, as JS number-to-integer truncation behaves. -/
def ratTrunc (q : ℚ) : ℤ :=
  if 0 ≤ q then ⌊q⌋ else ⌈q⌉

/-- The JavaScript `%` operator on numbers: the truncated-division remainder,
whose result carries the sign of the dividend (`(-90) % 360 = -90` in JS). -/
def jsRem (a b : ℚ) : ℚ :=
  a - b * (ratTrunc (a / b) : ℚ)

/-- The interaction mode, `'move' | 'scale' | 'rotate'`. -/
inductive InteractionMode where
  | move
  | scale
  | rotate
deriving DecidableEq, Repr

/-- The snapshot stored in `interactionRef.current` by `handleMouseDown`. -/
structure InteractionState where
  mode : InteractionMode
  startX : ℚ
  startY : ℚ
  originalX : ℚ
  originalY : ℚ
  originalWidth : ℚ
  originalHeight : ℚ
  originalScale : ℚ
  originalRotation : ℚ
  centerX : ℚ
  centerY : ℚ
deriving DecidableEq, Repr

/-- `handleMouseDown` (TattooLayer): `if (layer.isFixed) return;` then select
the layer and snapshot the anchor into `interactionRef.current`.  `rectLeft`,
`rectTop`, `rectW`, `rectH` are the layer element's bounding client rect and
`canvasLeft`, `canvasTop` the canvas's.  Returns `none` when no interaction
session is started (the fixed-layer guard fires): in that case the source
returns before `onSelect`, before the snapshot and before the move/up
listeners are installed, so no `onUpdate` can ever follow for this press. -/
def handleMouseDown (layer : Layer) (mode : InteractionMode)
    (clientX clientY rectLeft rectTop rectW rectH canvasLeft canvasTop : ℚ) :
    Option InteractionState :=
  if layer.isFixed then none
  else some
    { mode := mode
      startX := clientX
      startY := clientY
      originalX := layer.x
      originalY := layer.y
      originalWidth := rectW / layer.scale
      originalHeight := rectH / layer.scale
      originalScale := layer.scale
      originalRotation := layer.rotation
      centerX := rectLeft - canvasLeft + rectW / 2
      centerY := rectTop - canvasTop + rectH / 2 }

/-- `handleMouseMove` (TattooLayer): the partial update passed to `onUpdate`
for one pointer-move event.  `mag` stands for the value of
`Math.sqrt(dx*dx + dy*dy) / 100` and `angle` for
`Math.atan2(clientY - startY - centerY + originalY,
clientX - startX - centerX + originalX) * (180 / Math.PI)`;
both are transcendental, so they are taken as parameters and pinned down by
hypotheses in the theorems (`0 ≤ mag ∧ (100*mag)^2 = dx^2 + dy^2`, and the
atan2 degree range `-180 < angle ≤ 180`). -/
def handleMouseMove (st : InteractionState) (clientX clientY mag angle : ℚ) :
    LayerPatch :=
  let dx := clientX - st.startX
  let dy := clientY - st.startY
  match st.mode with
  | .move => { x? := some (st.originalX + dx), y? := some (st.originalY + dy) }
  | .scale =>
      { scale? := some (max (1/10)
          (if st.startX < clientX then st.originalScale + mag
           else st.originalScale - mag)) }
  | .rotate => { rotation? := some (jsRem (st.originalRotation + angle) 360) }

/-! ## Drop-to-place (`handleCanvasDrop`) -/

/-- `handleCanvasDrop` (App.tsx), the layer it constructs: `naturalW` and
`naturalH` are the dropped asset's natural image dimensions (from
`getImageDimensions`), `clientX`/`clientY` the drop event pointer position and
`boundsLeft`/`boundsTop` the canvas bounding rect origin.  `newId` stands for
the generated `layer-${Date.now()}` id. -/
def handleCanvasDrop (asset_id src newId : String)
    (naturalW naturalH clientX clientY boundsLeft boundsTop : ℚ) : Layer :=
  let ratioWH := naturalW / naturalH
  let initialWidth : ℚ := 150
  { id := newId
    assetId := asset_id
    src := src
    originalSrc := src
    x := clientX - boundsLeft - initialWidth / 2
    y := clientY - boundsTop - initialWidth / ratioWH / 2
    width := initialWidth
    height := initialWidth / ratioWH
    scale := 1
    rotation := 0
    brightness := 100
    contrast := 100
    isFixed := false }

/-! ## Export engine (`handleExport`)

The source accumulates the bounding box in a single `forEach` over
`fixedLayers`, updating four accumulator variables initialised as
`let minX = Infinity, minY = Infinity, maxX = 0, maxY = 0;`.
The loop is split here into one fold per accumulator over the same list.
`Infinity` has no rational counterpart; since `Math.min(Infinity, v) = v`,
the min accumulators are modelled as `Option ℚ` with `none` standing for the
initial `Infinity` (they become `some` on the first element and stay finite).
The max accumulators start at the genuine number `0`, exactly as in the
source. -/

/-- `minX` accumulation: `minX = Math.min(minX, l.x)` from `Infinity`. -/
def exportMinX (ls : List Layer) : Option ℚ :=
  ls.foldl (fun acc l => some (acc.elim l.x (fun m => min m l.x))) none

/-- `minY` accumulation: `minY = Math.min(minY, l.y)` from `Infinity`. -/
def exportMinY (ls : List Layer) : Option ℚ :=
  ls.foldl (fun acc l => some (acc.elim l.y (fun m => min m l.y))) none

/-- `maxX` accumulation: `maxX = Math.max(maxX, l.x + l.width * l.scale)`
from the initial value `0`. -/
def exportMaxX (ls : List Layer) : ℚ :=
  ls.foldl (fun acc l => max acc (l.x + l.width * l.scale)) 0

/-- `maxY` accumulation: `maxY = Math.max(maxY, l.y + l.height * l.scale)`
from the initial value `0`. -/
def exportMaxY (ls : List Layer) : ℚ :=
  ls.foldl (fun acc l => max acc (l.y + l.height * l.scale)) 0

/-- Outcome of `handleExport`.  `noLayersAlert`: the `fixedLayers.length === 0`
branch fired an `alert` and returned, no file.  `pending`: some fixed layer's
image failed to decode — each per-layer promise resolves only inside
`img.onload` and installs no `onerror` handler, so a failed decode leaves its
promise unsettled forever, `await Promise.all` never returns, and the code
that builds and clicks the download link is never reached (no file, and no
user-visible error either).  `file w h`: every image decoded, a PNG download
named `tattoo-collage.png` was produced from a canvas of dimensions
`(w, h)`. -/
inductive ExportResult where
  | noLayersAlert
  | pending
  | file (width height : ℚ)
deriving DecidableEq, Repr

/-- `handleExport` (App.tsx).  `decodeOk src` abstracts whether the image at
`src` decodes successfully (fires `onload`) in the browser. -/
def handleExport (ls : List Layer) (decodeOk : String → Bool) : ExportResult :=
  let fixedLayers := ls.filter (fun l => l.isFixed)
  if fixedLayers.length = 0 then .noLayersAlert
  else if fixedLayers.all (fun l => decodeOk l.src) then
    .file (exportMaxX fixedLayers - (exportMinX fixedLayers).getD 0)
          (exportMaxY fixedLayers - (exportMinY fixedLayers).getD 0)
  else .pending

/-- The export trigger acting on the whole app state: `handleExport` calls
neither `setLayers` nor `setSelectedLayerId`, so the state component of the
result is the input state unchanged. -/
def exportAction (s : AppState) (decodeOk : String → Bool) :
    AppState × ExportResult :=
  (s, handleExport s.layers decodeOk)

/-! ## Spec-side bounding box (for the refinement comparison of C3)

These two families of definitions follow the SPEC's words, not the source:
"`minX/minY` = componentwise minimum of each layer's top-left; `maxX/maxY` =
componentwise maximum of each layer's bottom-right", over a non-empty list. -/

/-- Spec-side `minX`: minimum of the layers' `x` (0 for an empty list, which
the export path never passes). -/
def specMinX : List Layer → ℚ
  | [] => 0
  | l :: t => t.foldl (fun acc m => min acc m.x) l.x

/-- Spec-side `minY`: minimum of the layers' `y`. -/
def specMinY : List Layer → ℚ
  | [] => 0
  | l :: t => t.foldl (fun acc m => min acc m.y) l.y

/-- Spec-side `maxX`: maximum of the layers' `x + width * scale`. -/
def specMaxX : List Layer → ℚ
  | [] => 0
  | l :: t =>
      t.foldl (fun acc m => max acc (m.x + m.width * m.scale))
        (l.x + l.width * l.scale)

/-- Spec-side `maxY`: maximum of the layers' `y + height * scale`. -/
def specMaxY : List Layer → ℚ
  | [] => 0
  | l :: t =>
      t.foldl (fun acc m => max acc (m.y + m.height * m.scale))
        (l.y + l.height * l.scale)

/-! ## Concrete fixtures used by witnesses and counterexamples -/

/-- A fixed layer sitting entirely in negative canvas coordinates (reachable:
drops near the canvas origin already give negative positions, and Move has no
clamping). -/
def negLayer : Layer :=
  { id := "L1", assetId := "a", src := "img1", originalSrc := "img1",
    x := -200, y := -200, width := 100, height := 100, scale := 1,
    rotation := 0, brightness := 100, contrast := 100, isFixed := true }

/-- A fixed layer with recognisable field values, for update counterexamples. -/
def fixedLayer : Layer :=
  { id := "F", assetId := "a", src := "img2", originalSrc := "img2",
    x := 1, y := 2, width := 100, height := 100, scale := 1,
    rotation := 0, brightness := 100, contrast := 100, isFixed := true }

/-- An ordinary unfixed layer. -/
def plainLayer : Layer :=
  { id := "A", assetId := "a", src := "img3", originalSrc := "img3",
    x := 10, y := 20, width := 100, height := 50, scale := 1,
    rotation := 0, brightness := 100, contrast := 100, isFixed := false }

/-- App state with a single unfixed layer which is selected. -/
def plainState : AppState :=
  { layers := [plainLayer], selectedLayerId := some "A" }

/-- An in-flight Rotate session whose anchor pointer, layer position and
centre all sit at the origin, with anchor rotation `0`. -/
def rotState : InteractionState :=
  { mode := .rotate, startX := 0, startY := 0, originalX := 0, originalY := 0,
    originalWidth := 100, originalHeight := 100, originalScale := 1,
    originalRotation := 0, centerX := 0, centerY := 0 }

/-- An in-flight Rotate session with anchor rotation `270`. -/
def rotState270 : InteractionState :=
  { rotState with originalRotation := 270 }

/-- An in-flight Scale session with anchor scale `1/2` and anchor pointer at
the origin. -/
def scaleState : InteractionState :=
  { rotState with mode := .scale, originalScale := 1/2 }

/-! ## Helper lemmas -/

/-- The empty patch merges to the identity (object spread with `{}`). -/
theorem applyPatch_empty (l : Layer) : applyPatch l LayerPatch.empty = l := rfl

/-- `handleUpdateLayer` with an id matching no layer leaves the list alone. -/
theorem handleUpdateLayer_no_match (ls : List Layer) (id : String)
    (p : LayerPatch) (h : ∀ l ∈ ls, l.id ≠ id) :
    handleUpdateLayer ls id p = ls := by
  induction ls with
  | nil => rfl
  | cons a t ih =>
      have ha : a.id ≠ id := h a (List.mem_cons_self a t)
      have ht : handleUpdateLayer t id p = t :=
        ih (fun l hl => h l (List.mem_cons_of_mem a hl))
      simpa [handleUpdateLayer, if_neg ha] using ht

/-- Pulling a `max` out of a max-accumulating fold. -/
theorem foldl_max_shift {α : Type} (f : α → ℚ) (t : List α) (c b : ℚ) :
    t.foldl (fun acc x => max acc (f x)) (max c b) =
      max c (t.foldl (fun acc x => max acc (f x)) b) := by
  induction t generalizing b with
  | nil => rfl
  | cons a s ih =>
      simp only [List.foldl_cons]
      rw [max_assoc]
      exact ih (max b (f a))

/-- Once the min accumulator has left its `Infinity` (`none`) start, the
`Option`-valued fold is the plain min fold. -/
theorem foldl_optmin {α : Type} (f : α → ℚ) (t : List α) (b : ℚ) :
    t.foldl (fun acc x => some (acc.elim (f x) (fun m => min m (f x))))
        (some b) =
      some (t.foldl (fun acc x => min acc (f x)) b) := by
  induction t generalizing b with
  | nil => rfl
  | cons a s ih =>
      simp only [List.foldl_cons, Option.elim]
      exact ih (min b (f a))

/-- On a non-empty layer list, the source's `maxX` accumulation (started at
`0`) computes `max 0` of the true maximum of the right edges. -/
theorem exportMaxX_eq (l : Layer) (t : List Layer) :
    exportMaxX (l :: t) = max 0 (specMaxX (l :: t)) := by
  unfold exportMaxX specMaxX
  simp only [List.foldl_cons]
  exact foldl_max_shift (fun m => m.x + m.width * m.scale) t 0
    (l.x + l.width * l.scale)

/-- On a non-empty layer list, the source's `maxY` accumulation computes
`max 0` of the true maximum of the bottom edges. -/
theorem exportMaxY_eq (l : Layer) (t : List Layer) :
    exportMaxY (l :: t) = max 0 (specMaxY (l :: t)) := by
  unfold exportMaxY specMaxY
  simp only [List.foldl_cons]
  exact foldl_max_shift (fun m => m.y + m.height * m.scale) t 0
    (l.y + l.height * l.scale)

/-- On a non-empty layer list, the source's `minX` accumulation (started at
`Infinity`) computes the true minimum of the left edges. -/
theorem exportMinX_eq (l : Layer) (t : List Layer) :
    exportMinX (l :: t) = some (specMinX (l :: t)) := by
  unfold exportMinX specMinX
  simp only [List.foldl_cons, Option.elim]
  exact foldl_optmin (fun m => m.x) t l.x

/-- On a non-empty layer list, the source's `minY` accumulation computes the
true minimum of the top edges. -/
theorem exportMinY_eq (l : Layer) (t : List Layer) :
    exportMinY (l :: t) = some (specMinY (l :: t)) := by
  unfold exportMinY specMinY
  simp only [List.foldl_cons, Option.elim]
  exact foldl_optmin (fun m => m.y) t l.y




/-! ## Claim theorems -/

/-- C6: when export is invoked and no layer has `isFixed = true`, it fails
with the no-layers alert (`NoLayersToExport`): no output file is produced and
neither the layer list nor the selection is changed. -/
theorem C6_export_no_fixed_layers (s : AppState) (decodeOk : String → Bool)
    (h : ∀ l ∈ s.layers, l.isFixed = false) :
    exportAction s decodeOk = (s, ExportResult.noLayersAlert) := by
  have hf : s.layers.filter (fun l => l.isFixed) = [] :=
    List.filter_eq_nil_iff.mpr (fun l hl => by simp [h l hl])
  simp [exportAction, handleExport, hf]

/-- C6 witness: a concrete store with one unfixed layer. -/
theorem C6_witness :
    exportAction plainState (fun _ => true) =
      (plainState, ExportResult.noLayersAlert) :=
  C6_export_no_fixed_layers plainState (fun _ => true)
    (by intro l hl; simp [plainState] at hl; simp [hl, plainLayer])

/-- C7: `updateLayer(id, partial)` preserves the list's length and order,
leaves every layer whose id differs untouched, replaces the layer with the
matching id by the merge of only the provided fields (each absent field keeps
its old value), and with the empty partial is the identity on the store. -/
theorem C7_updateLayer_partial_merge (ls : List Layer) (id : String)
    (p : LayerPatch) :
    (handleUpdateLayer ls id p).length = ls.length ∧
    (∀ i : Nat, ∀ hi : i < ls.length, (ls.get ⟨i, hi⟩).id ≠ id →
      (handleUpdateLayer ls id p)[i]? = some (ls.get ⟨i, hi⟩)) ∧
    (∀ i : Nat, ∀ hi : i < ls.length, (ls.get ⟨i, hi⟩).id = id →
      (handleUpdateLayer ls id p)[i]? = some (applyPatch (ls.get ⟨i, hi⟩) p)) ∧
    (∀ l : Layer,
      (p.x? = none → (applyPatch l p).x = l.x) ∧
      (p.y? = none → (applyPatch l p).y = l.y) ∧
      (p.width? = none → (applyPatch l p).width = l.width) ∧
      (p.height? = none → (applyPatch l p).height = l.height) ∧
      (p.scale? = none → (applyPatch l p).scale = l.scale) ∧
      (p.rotation? = none → (applyPatch l p).rotation = l.rotation) ∧
      (p.brightness? = none → (applyPatch l p).brightness = l.brightness) ∧
      (p.contrast? = none → (applyPatch l p).contrast = l.contrast) ∧
      (p.isFixed? = none → (applyPatch l p).isFixed = l.isFixed) ∧
      (p.id? = none → (applyPatch l p).id = l.id) ∧
      (p.assetId? = none → (applyPatch l p).assetId = l.assetId) ∧
      (p.src? = none → (applyPatch l p).src = l.src) ∧
      (p.originalSrc? = none → (applyPatch l p).originalSrc = l.originalSrc)) ∧
    handleUpdateLayer ls id LayerPatch.empty = ls := by
  refine ⟨by simp [handleUpdateLayer], ?_, ?_, ?_, ?_⟩
  · intro i hi hne
    simp only [List.get_eq_getElem] at hne
    simp only [handleUpdateLayer, List.getElem?_map,
      List.getElem?_eq_getElem hi, Option.map_some', List.get_eq_getElem]
    rw [if_neg hne]
  · intro i hi heq
    simp only [List.get_eq_getElem] at heq
    simp only [handleUpdateLayer, List.getElem?_map,
      List.getElem?_eq_getElem hi, Option.map_some', List.get_eq_getElem]
    rw [if_pos heq]
  · intro l
    refine ⟨?_, ?_, ?_, ?_, ?_, ?_, ?_, ?_, ?_, ?_, ?_, ?_, ?_⟩ <;>
      (intro hn; simp [applyPatch, hn])
  · have h : ∀ l : Layer,
        (if l.id = id then applyPatch l LayerPatch.empty else l) = l := by
      intro l; split <;> rfl
    simp only [handleUpdateLayer, h]
    exact List.map_id' ls

/-- C7 witness: a two-layer store, updating the second layer's `x` only. -/
theorem C7_witness :
    (handleUpdateLayer [plainLayer, fixedLayer] "F" { x? := some 5 }).length
        = 2 ∧
    (handleUpdateLayer [plainLayer, fixedLayer] "F" { x? := some 5 })[0]? =
        some plainLayer ∧
    (handleUpdateLayer [plainLayer, fixedLayer] "F" { x? := some 5 })[1]? =
        some (applyPatch fixedLayer { x? := some 5 }) ∧
    (applyPatch plainLayer { x? := some 5 }).y = plainLayer.y ∧
    handleUpdateLayer [plainLayer, fixedLayer] "F" LayerPatch.empty =
        [plainLayer, fixedLayer] := by
  obtain ⟨h1, h2, h3, h4, h5⟩ :=
    C7_updateLayer_partial_merge [plainLayer, fixedLayer] "F" { x? := some 5 }
  refine ⟨h1, ?_, ?_, (h4 plainLayer).2.1 rfl, h5⟩
  · have := h2 0 (by simp) (by simp [plainLayer, fixedLayer])
    simpa using this
  · have := h3 1 (by simp) (by simp [plainLayer, fixedLayer])
    simpa using this

/-- C1 counterexample: `fixedLayer` has `isFixed = true` and `x = 1`, yet
`updateLayer` with `{ x: 5 }` changes its `x` to `5` — the function has no
`isFixed` guard, so an update on a fixed layer is not a no-op. -/
theorem C1_counterexample :
    fixedLayer.isFixed = true ∧ fixedLayer.x = 1 ∧
    (handleUpdateLayer [fixedLayer] "F" { x? := some 5 }).map Layer.x = [5] ∧
    (5 : ℚ) ≠ 1 := by
  refine ⟨rfl, rfl, ?_, by norm_num⟩
  simp [handleUpdateLayer, fixedLayer, applyPatch]

/-- C1 amended: `updateLayer` itself applies the merge regardless of
`isFixed` (see the counterexample); fixed-layer immutability is enforced at
the interaction entry point instead: `handleMouseDown` on a layer with
`isFixed = true` returns immediately, so no interaction session (and hence no
move/scale/rotate `onUpdate`) is ever produced for a fixed layer, leaving its
geometry and filter fields unchanged by interactions. -/
theorem C1_fixed_layer_starts_no_interaction (layer : Layer)
    (mode : InteractionMode)
    (clientX clientY rectLeft rectTop rectW rectH canvasLeft canvasTop : ℚ)
    (h : layer.isFixed = true) :
    handleMouseDown layer mode clientX clientY rectLeft rectTop rectW rectH
      canvasLeft canvasTop = none := by
  simp [handleMouseDown, h]

/-- C1 witness: pressing on the concrete fixed layer starts no session. -/
theorem C1_witness :
    handleMouseDown fixedLayer .move 7 8 0 0 100 100 0 0 = none :=
  C1_fixed_layer_starts_no_interaction fixedLayer .move 7 8 0 0 100 100 0 0 rfl

/-- C10: `handleFixLayer` always sets the selection to `null`, for every
store, every selection and every id (selected or not, known or not); layers
with a different id survive it untouched. -/
theorem C10_fix_always_clears_selection (s : AppState) (id : String) :
    (handleFixLayer s id).selectedLayerId = none ∧
    ∀ l ∈ s.layers, l.id ≠ id → l ∈ (handleFixLayer s id).layers := by
  refine ⟨rfl, fun l hl hne => ?_⟩
  simp only [handleFixLayer, handleUpdateLayer]
  exact List.mem_map.mpr ⟨l, hl, by rw [if_neg hne]⟩

/-- C10 witness: fixing an unknown id in a store whose selection points at a
different layer still nulls the selection, and the other layer survives. -/
theorem C10_witness :
    (handleFixLayer plainState "zzz").selectedLayerId = none ∧
    plainLayer ∈ (handleFixLayer plainState "zzz").layers := by
  obtain ⟨h1, h2⟩ := C10_fix_always_clears_selection plainState "zzz"
  exact ⟨h1, h2 plainLayer (by simp [plainState]) (by simp [plainLayer])⟩

/-- C8 counterexample: with the unfixed layer `A` selected, `setFixed` on the
unknown id `"zzz"` is not a silent no-op — it clears the selection. -/
theorem C8_counterexample :
    plainState.layers.all (fun l => l.id ≠ "zzz") = true ∧
    plainState.selectedLayerId = some "A" ∧
    (handleFixLayer plainState "zzz").selectedLayerId = none := by
  refine ⟨?_, rfl, rfl⟩
  simp [plainState, plainLayer]

/-- C8 amended: with an id not present in the store, `updateLayer` is a
complete silent no-op, `deleteLayer` is a complete silent no-op provided the
selection does not hold that unknown id (which a consistent store
guarantees), and `setFixed` leaves the layer list unchanged but still resets
the selection to `null`; none of the three raises a user-visible error (none
of these handlers has an error path). -/
theorem C8_unknown_id_ops (s : AppState) (id : String)
    (h : ∀ l ∈ s.layers, l.id ≠ id) :
    (∀ p : LayerPatch, updateLayerS s id p = s) ∧
    (s.selectedLayerId ≠ some id → handleDeleteLayer s id = s) ∧
    (handleFixLayer s id).layers = s.layers ∧
    (handleFixLayer s id).selectedLayerId = none := by
  refine ⟨?_, ?_, ?_, rfl⟩
  · intro p
    simp [updateLayerS, handleUpdateLayer_no_match s.layers id p h]
  · intro hsel
    have hfilter : s.layers.filter (fun l => l.id ≠ id) = s.layers :=
      List.filter_eq_self.mpr (fun l hl => by simp [h l hl])
    cases s with
    | mk layers sel =>
        simp only [handleDeleteLayer] at *
        rw [hfilter, if_neg hsel]
  · exact handleUpdateLayer_no_match s.layers id _ h

/-- C8 witness: the three operations at a concrete store and unknown id. -/
theorem C8_witness :
    updateLayerS plainState "zzz" { scale? := some 2 } = plainState ∧
    handleDeleteLayer plainState "zzz" = plainState ∧
    (handleFixLayer plainState "zzz").layers = plainState.layers := by
  obtain ⟨h1, h2, h3, _⟩ :=
    C8_unknown_id_ops plainState "zzz"
      (by intro l hl; simp [plainState] at hl; simp [hl, plainLayer])
  exact ⟨h1 _, h2 (by simp [plainState]), h3⟩

/-- C9: a drop creates a layer with `baseSize = (150, 150·naturalH/naturalW)`,
position = drop point minus half the base size, `scale 1`, `rotation 0`,
`brightness 100`, `contrast 100`, `isFixed false`; in particular a 200×100
asset dropped at canvas point (50, 50) yields `baseSize (150, 75)` and
position `(−25, 12.5)`. -/
theorem C9_drop_layer_fields (aid src nid : String)
    (naturalW naturalH clientX clientY boundsLeft boundsTop : ℚ) :
    (handleCanvasDrop aid src nid naturalW naturalH clientX clientY
        boundsLeft boundsTop).width = 150 ∧
    (handleCanvasDrop aid src nid naturalW naturalH clientX clientY
        boundsLeft boundsTop).height = 150 * naturalH / naturalW ∧
    (handleCanvasDrop aid src nid naturalW naturalH clientX clientY
        boundsLeft boundsTop).x = (clientX - boundsLeft) - 150 / 2 ∧
    (handleCanvasDrop aid src nid naturalW naturalH clientX clientY
        boundsLeft boundsTop).y =
      (clientY - boundsTop) - (150 * naturalH / naturalW) / 2 ∧
    (handleCanvasDrop aid src nid naturalW naturalH clientX clientY
        boundsLeft boundsTop).scale = 1 ∧
    (handleCanvasDrop aid src nid naturalW naturalH clientX clientY
        boundsLeft boundsTop).rotation = 0 ∧
    (handleCanvasDrop aid src nid naturalW naturalH clientX clientY
        boundsLeft boundsTop).brightness = 100 ∧
    (handleCanvasDrop aid src nid naturalW naturalH clientX clientY
        boundsLeft boundsTop).contrast = 100 ∧
    (handleCanvasDrop aid src nid naturalW naturalH clientX clientY
        boundsLeft boundsTop).isFixed = false ∧
    (handleCanvasDrop aid src nid 200 100 50 50 0 0).width = 150 ∧
    (handleCanvasDrop aid src nid 200 100 50 50 0 0).height = 75 ∧
    (handleCanvasDrop aid src nid 200 100 50 50 0 0).x = -25 ∧
    (handleCanvasDrop aid src nid 200 100 50 50 0 0).y = 25 / 2 := by
  have hdd : (150 : ℚ) / (naturalW / naturalH) = 150 * naturalH / naturalW :=
    div_div_eq_mul_div 150 naturalW naturalH
  refine ⟨rfl, ?_, by simp [handleCanvasDrop], ?_, rfl, rfl, rfl, rfl,
    rfl, rfl, by norm_num [handleCanvasDrop], by norm_num [handleCanvasDrop],
    by norm_num [handleCanvasDrop]⟩
  · simpa [handleCanvasDrop] using hdd
  · simp only [handleCanvasDrop]
    rw [hdd]

/-- C5: the scale stored by a Scale-interaction update is
`max(0.1, anchorScale + sign · mag)` where `mag = sqrt(dx² + dy²)/100`
(characterised algebraically by `0 ≤ mag` and `(100·mag)² = dx² + dy²`) and
`sign = +1` exactly when the current pointer x exceeds the anchor pointer x,
`−1` otherwise; in particular the stored scale is always `≥ 0.1`. -/
theorem C5_scale_update (st : InteractionState) (clientX clientY mag angle : ℚ)
    (hmode : st.mode = InteractionMode.scale)
    (hanchor : 1/10 ≤ st.originalScale)
    (hmag0 : 0 ≤ mag)
    (hmag : (100 * mag)^2 = (clientX - st.startX)^2 + (clientY - st.startY)^2) :
    (handleMouseMove st clientX clientY mag angle).scale? =
      some (max (1/10)
        (st.originalScale + (if st.startX < clientX then 1 else -1) * mag)) ∧
    (1/10 : ℚ) ≤
      max (1/10)
        (st.originalScale + (if st.startX < clientX then 1 else -1) * mag) := by
  refine ⟨?_, le_max_left _ _⟩
  simp only [handleMouseMove, hmode]
  congr 1
  split <;> ring_nf

/-- C5 witness: anchor scale 1/2, pointer moved by (3, 4) from the anchor, so
`mag = sqrt(3² + 4²)/100 = 5/100 = 1/20` and the pointer moved rightwards:
stored scale is `max(0.1, 1/2 + 1/20) = 11/20`. -/
theorem C5_witness :
    (handleMouseMove scaleState 3 4 (1/20) 0).scale? = some (11/20) ∧
    (1/10 : ℚ) ≤ 11/20 := by
  obtain ⟨h1, h2⟩ := C5_scale_update scaleState 3 4 (1/20) 0 rfl
    (by norm_num [scaleState, rotState]) (by norm_num)
    (by norm_num [scaleState, rotState])
  refine ⟨?_, by norm_num⟩
  rw [h1]
  norm_num [scaleState, rotState]

/-- Range of the JS remainder `s % 360` for `s ∈ (−180, 540)`, the range the
rotate update can feed it (anchor rotation in `[0, 360)` plus an atan2 degree
angle in `(−180, 180]`). -/
theorem jsRem_360_bounds (s : ℚ) (h1 : -180 < s) (h2 : s < 540) :
    -180 < jsRem s 360 ∧ jsRem s 360 < 360 := by
  rcases lt_or_le s 0 with hs | hs
  · have hq : s / 360 < 0 := div_neg_of_neg_of_pos hs (by norm_num)
    have hnot : ¬ (0 ≤ s / 360) := not_le.mpr hq
    have hlow : (-1 : ℚ) < s / 360 := by
      rw [lt_div_iff₀ (by norm_num : (0:ℚ) < 360)]
      linarith
    have hceil : ⌈s / 360⌉ = 0 :=
      Int.ceil_eq_zero_iff.mpr (Set.mem_Ioc.mpr ⟨hlow, le_of_lt hq⟩)
    simp only [jsRem, ratTrunc, if_neg hnot, hceil, Int.cast_zero, mul_zero,
      sub_zero]
    exact ⟨h1, by linarith⟩
  · have hq0 : 0 ≤ s / 360 := div_nonneg hs (by norm_num)
    rcases lt_or_le s 360 with h360 | h360
    · have hup : s / 360 < 1 := by
        rw [div_lt_one (by norm_num : (0:ℚ) < 360)]
        exact h360
      have hfl : ⌊s / 360⌋ = 0 :=
        Int.floor_eq_zero_iff.mpr (Set.mem_Ico.mpr ⟨hq0, hup⟩)
      simp only [jsRem, ratTrunc, if_pos hq0, hfl, Int.cast_zero, mul_zero,
        sub_zero]
      exact ⟨by linarith, h360⟩
    · have hfl : ⌊s / 360⌋ = 1 := by
        rw [Int.floor_eq_iff]
        constructor
        · rw [Int.cast_one, le_div_iff₀ (by norm_num : (0:ℚ) < 360)]
          linarith
        · rw [div_lt_iff₀ (by norm_num : (0:ℚ) < 360)]
          push_cast
          linarith
      simp only [jsRem, ratTrunc, if_pos hq0, hfl, Int.cast_one, mul_one]
      exact ⟨by linarith, by linarith⟩

/-- C2 counterexample: Rotate with anchor rotation `0`, anchor pointer, layer
position and layer centre all at the origin, pointer moved to `(0, −1)`: the
atan2 argument pair is `(−1, 0)`, whose angle is exactly
`atan2(−1, 0)·180/π = −90` degrees (and `mag = sqrt(0² + (−1)²)/100 = 1/100`);
the stored rotation is `(0 + (−90)) % 360 = −90` under the JS sign-keeping
remainder, violating `0 ≤ rotation`. -/
theorem C2_counterexample :
    (handleMouseMove rotState 0 (-1) (1/100) (-90)).rotation? = some (-90) ∧
    ¬ ((0:ℚ) ≤ -90) := by
  constructor
  · norm_num [handleMouseMove, rotState, jsRem, ratTrunc]
  · norm_num

/-- C2 amended: the rotation stored by a Rotate-interaction update is the JS
remainder `(anchorRotation + angle) % 360`, which keeps the dividend's sign;
for an anchor rotation in `[0, 360)` and an atan2 degree angle in
`(−180, 180]` it satisfies `−180 < rotation < 360` — it is not normalised
into `[0, 360)` and is negative whenever `anchorRotation + angle < 0`. -/
theorem C2_rotate_range (st : InteractionState) (clientX clientY mag angle : ℚ)
    (hmode : st.mode = InteractionMode.rotate)
    (h0 : 0 ≤ st.originalRotation) (h1 : st.originalRotation < 360)
    (ha1 : -180 < angle) (ha2 : angle ≤ 180) :
    (handleMouseMove st clientX clientY mag angle).rotation? =
      some (jsRem (st.originalRotation + angle) 360) ∧
    -180 < jsRem (st.originalRotation + angle) 360 ∧
    jsRem (st.originalRotation + angle) 360 < 360 := by
  have hb := jsRem_360_bounds (st.originalRotation + angle)
    (by linarith) (by linarith)
  refine ⟨?_, hb.1, hb.2⟩
  simp only [handleMouseMove, hmode]

/-- C2 witness: anchor rotation `270`, angle `180`: the stored rotation is
`450 % 360 = 90`, inside the amended range. -/
theorem C2_witness :
    (handleMouseMove rotState270 0 0 0 180).rotation? =
      some (jsRem (270 + 180) 360) ∧
    -180 < jsRem (270 + 180) 360 ∧ jsRem (270 + 180) 360 < 360 := by
  have h := C2_rotate_range rotState270 0 0 0 180 rfl
    (by norm_num [rotState270, rotState]) (by norm_num [rotState270, rotState])
    (by norm_num) le_rfl
  simpa only [rotState270, rotState] using h

/-- C3 counterexample: a single fixed layer entirely in negative coordinates,
from `(−200, −200)` to `(−100, −100)`.  The claim's dimensions would be
`maxX − minX = (−100) − (−200) = 100`, but the source initialises its max
accumulators to `0` (not `−Infinity`), so the produced canvas is
`0 − (−200) = 200` wide and tall. -/
theorem C3_counterexample :
    handleExport [negLayer] (fun _ => true) = ExportResult.file 200 200 ∧
    specMaxX ([negLayer].filter (fun l => l.isFixed)) -
        specMinX ([negLayer].filter (fun l => l.isFixed)) = 100 ∧
    specMaxY ([negLayer].filter (fun l => l.isFixed)) -
        specMinY ([negLayer].filter (fun l => l.isFixed)) = 100 ∧
    (200 : ℚ) ≠ 100 := by
  refine ⟨?_, ?_, ?_, by norm_num⟩
  · norm_num [handleExport, exportMaxX, exportMinX, exportMaxY, exportMinY,
      negLayer, List.filter, List.foldl]
  · norm_num [specMaxX, specMinX, negLayer, List.filter]
  · norm_num [specMaxY, specMinY, negLayer, List.filter]

/-- C3 amended: for a non-empty set of fixed layers (all of whose images
decode), the output canvas dimensions are
`(max(0, maxX) − minX, max(0, maxY) − minY)` where `minX/minY` is the
componentwise minimum over top-left corners and `maxX/maxY` the componentwise
maximum over bottom-right corners `(x + width·scale, y + height·scale)`: the
source starts its max accumulators at `0`, so the claimed `maxX − minX`
height/width only results when the true maxima are non-negative. -/
theorem C3_export_dims (ls : List Layer) (decodeOk : String → Bool)
    (hne : ls.filter (fun l => l.isFixed) ≠ [])
    (hdec : ∀ l ∈ ls.filter (fun l => l.isFixed), decodeOk l.src = true) :
    handleExport ls decodeOk =
      ExportResult.file
        (max 0 (specMaxX (ls.filter (fun l => l.isFixed))) -
          specMinX (ls.filter (fun l => l.isFixed)))
        (max 0 (specMaxY (ls.filter (fun l => l.isFixed))) -
          specMinY (ls.filter (fun l => l.isFixed))) := by
  obtain ⟨a, t, hF⟩ := List.exists_cons_of_ne_nil hne
  have hall : (ls.filter (fun l => l.isFixed)).all (fun l => decodeOk l.src)
      = true :=
    List.all_eq_true.mpr (fun l hl => hdec l hl)
  rw [hF] at hall
  simp only [handleExport, hF]
  rw [if_neg (by simp : ¬ (a :: t).length = 0), if_pos hall,
    exportMaxX_eq, exportMinX_eq, exportMaxY_eq, exportMinY_eq,
    Option.getD_some, Option.getD_some]

/-- C3 witness: one fixed layer from `(10, 20)` to `(110, 70)` (positive
coordinates, `scale = 1`): dimensions `(max(0, 110) − 10, max(0, 70) − 20) =
(100, 50)`. -/
theorem C3_witness :
    handleExport [{ plainLayer with isFixed := true }] (fun _ => true) =
      ExportResult.file 100 50 := by
  have h := C3_export_dims [{ plainLayer with isFixed := true }]
    (fun _ => true) (by simp [plainLayer]) (by simp)
  rw [h]
  norm_num [specMaxX, specMinX, specMaxY, specMinY, plainLayer, List.filter]

/-- C4 counterexample: one fixed layer whose image fails to decode.  The
export ends in the `pending` outcome: the per-layer promise resolves only in
`img.onload` and has no `onerror` handler, so `await Promise.all` never
returns — no output file is produced, but no failure is surfaced to the user
either (there is no `ExportImageDecodeFailure` path in the code; the export
silently hangs). -/
theorem C4_counterexample :
    handleExport [negLayer] (fun _ => false) = ExportResult.pending ∧
    ExportResult.pending ≠ ExportResult.noLayersAlert := by
  refine ⟨?_, by simp⟩
  norm_num [handleExport, negLayer, List.filter]

/-- C4 amended: if any fixed layer's source image fails to decode during
export, no output file is produced — but the failure is never surfaced: the
export operation remains pending forever (its promise can never settle, since
the image promises resolve only on `onload` and install no `onerror`
handler), rather than failing with an `ExportImageDecodeFailure`. -/
theorem C4_decode_failure_hangs (ls : List Layer) (decodeOk : String → Bool)
    (l : Layer) (hmem : l ∈ ls) (hfix : l.isFixed = true)
    (hfail : decodeOk l.src = false) :
    handleExport ls decodeOk = ExportResult.pending := by
  have hmemF : l ∈ ls.filter (fun m => m.isFixed) :=
    List.mem_filter.mpr ⟨hmem, by simp [hfix]⟩
  have hne : ¬ (ls.filter (fun m => m.isFixed)).length = 0 := by
    simp only [List.length_eq_zero]
    exact List.ne_nil_of_mem hmemF
  have hall : ¬ ((ls.filter (fun m => m.isFixed)).all (fun m => decodeOk m.src)
      = true) := by
    simp only [List.all_eq_true, not_forall]
    exact ⟨l, hmemF, by simp [hfail]⟩
  simp only [handleExport]
  rw [if_neg hne, if_neg hall]

/-- C4 witness: a two-layer store whose fixed layer's image (`img1`) fails to
decode while the other decodes fine — the whole export stays pending. -/
theorem C4_witness :
    handleExport [plainLayer, negLayer] (fun s => s ≠ "img1") =
      ExportResult.pending :=
  C4_decode_failure_hangs [plainLayer, negLayer] (fun s => s ≠ "img1")
    negLayer (by simp) rfl (by simp [negLayer])
